import Mathlib

/-!
Shallow embedding of the sector-classification and portfolio-aggregation
pipeline of the BDC portfolio monitor, together with its watchlist cache,
batch-analyze HTTP handler and periodic price-refresh job.

Sources embedded (monetary values are modelled with `ℚ`, timestamps in
milliseconds with `ℤ`, SQL/JS nullable fields with `Option`):
- `src/lib/sector-classifier.ts` (part_006): `SECTORS`, `SECTOR_KEYWORDS`,
  `classifySector`.
- `src/app/page.tsx` (part_002): the per-BDC holdings aggregation inside
  `getBDCData`, the skip rule for empty records, and the dashboard's
  average-metric computation in `Home`.
- `src/app/api/watchlist/analyze/route.ts`: `isRecent` and the `POST`
  handler (validation, cache freshness check, AI-failure placeholder).
- `src/app/api/cron/refresh-prices/route.ts`: the per-BDC update-field
  construction and application of the refresh job.
-/

namespace PortfolioMonitor

/-- The fixed ordered sector taxonomy (`SECTORS` in sector-classifier.ts). -/
inductive Sector where
  | softwareTechnology
  | healthcare
  | businessServices
  | industrials
  | consumer
  | financialServices
  | mediaTelecom
  | energy
  | realEstate
  | other
deriving DecidableEq, Repr, Fintype

/-- `SECTORS`: declared enumeration order of the 10 sectors. -/
def SECTORS : List Sector :=
  [.softwareTechnology, .healthcare, .businessServices, .industrials,
   .consumer, .financialServices, .mediaTelecom, .energy, .realEstate, .other]

/-- `SECTOR_KEYWORDS`: ordered keyword table, one entry per sector in
declared order ('Other' has no keywords). -/
def SECTOR_KEYWORDS : List (Sector × List String) :=
  [(.softwareTechnology,
    ["software", "saas", "technology", "tech", "it services", "data",
     "cloud", "cyber", "digital", "internet", "computer", "electronics",
     "semiconductor", "application", "platform", "analytics"]),
   (.healthcare,
    ["health", "medical", "pharma", "biotech", "hospital", "clinical",
     "dental", "physician", "drug", "therapeutic", "diagnostic", "life science",
     "veterinary", "healthcare"]),
   (.businessServices,
    ["business services", "professional services", "staffing", "consulting",
     "outsourcing", "human resources", "hr services", "marketing services",
     "advertising", "commercial services"]),
   (.industrials,
    ["industrial", "manufacturing", "aerospace", "defense", "machinery",
     "construction", "engineering", "transportation", "logistics",
     "distribution", "building products", "equipment"]),
   (.consumer,
    ["consumer", "retail", "restaurant", "food", "beverage", "apparel",
     "leisure", "entertainment", "gaming", "hotel", "hospitality",
     "e-commerce", "education", "personal services"]),
   (.financialServices,
    ["financial", "insurance", "banking", "asset management", "lending",
     "capital markets", "investment", "fintech"]),
   (.mediaTelecom,
    ["media", "telecom", "telecommunications", "broadcasting", "publishing",
     "communications", "wireless", "cable"]),
   (.energy,
    ["energy", "oil", "gas", "petroleum", "pipeline", "power",
     "utilities", "renewable", "solar", "wind"]),
   (.realEstate,
    ["real estate", "property", "reit", "housing"]),
   (.other, [])]

/-- JS `hay.includes(needle)`: substring containment. -/
def strContains (hay needle : String) : Bool :=
  hay.toList.tails.any (fun t => needle.toList.isPrefixOf t)

/-- Does the text contain any of the given keywords (inner keyword loop)? -/
def matchesKeywords (industry : String) (keywords : List String) : Bool :=
  keywords.any (fun k => strContains industry k)

/-- The `for (const [sector, keywords] of Object.entries(SECTOR_KEYWORDS))`
loop in `classifySector`, skipping 'Other'. -/
def classifyLoop (industry : String) : List (Sector × List String) → Sector
  | [] => .other
  | (sector, keywords) :: rest =>
    if sector = Sector.other then classifyLoop industry rest
    else if matchesKeywords industry keywords then sector
    else classifyLoop industry rest

/-- Strip leading and trailing whitespace from a character list. -/
def trimChars (l : List Char) : List Char :=
  ((l.dropWhile Char.isWhitespace).reverse.dropWhile Char.isWhitespace).reverse

/-- `rawIndustry.toLowerCase().trim()`, computed character-wise: the
byte-level loops of `String.toLower`/`String.trim` are modelled by the
equivalent transformation of the string's character list. -/
def normalizeIndustry (s : String) : String :=
  String.mk (trimChars (s.toList.map Char.toLower))

/-- `classifySector(rawIndustry: string | null | undefined): Sector`.
`none` models null/undefined; JS `!rawIndustry` is also true for `""`. -/
def classifySector (rawIndustry : Option String) : Sector :=
  match rawIndustry with
  | none => .other
  | some s =>
    if s = "" then .other
    else classifyLoop (normalizeIndustry s) SECTOR_KEYWORDS

/-- The keyword list registered for a sector in `SECTOR_KEYWORDS`. -/
def keywordsFor (s : Sector) : List String :=
  ((SECTOR_KEYWORDS.find? (fun p => p.1 = s)).map Prod.snd).getD []

/-- Normalized text contains at least one keyword registered for sector `s`. -/
def sectorMatches (industry : String) (s : Sector) : Bool :=
  matchesKeywords industry (keywordsFor s)

/-- Normalized text contains a keyword of at least one sector. -/
def matchesAnyKeyword (industry : String) : Bool :=
  SECTOR_KEYWORDS.any (fun p => matchesKeywords industry p.2)

/-- Position of a sector in the declared enumeration order. -/
def sectorIdx (s : Sector) : ℕ := SECTORS.indexOf s

/-! ### Holdings aggregation (`getBDCData` in the dashboard page, part_002) -/

/-- A row of the `holdings` table (see the schema in part_000).
`industry_sector` holds the sector resolved at import time; the spec's data
model types it as a resolved `Sector`, `none` modelling SQL null and the
empty string (both falsy under the JS `||` used to read it). -/
structure Holding where
  bdc_cik : String
  period_date : String
  company_name : String
  industry_raw : Option String
  industry_sector : Option Sector
  fair_value : Option ℚ
deriving DecidableEq, Repr

/-- Lexicographic order on the character lists of two strings. -/
def charListLe : List Char → List Char → Bool
  | [], _ => true
  | _ :: _, [] => false
  | a :: as, b :: bs =>
    if a.val < b.val then true
    else if b.val < a.val then false
    else charListLe as bs

/-- Lexicographic order on date strings; on ISO `YYYY-MM-DD` strings this is
the date order used by the store's `ORDER BY period_date DESC`. -/
def periodLe (a b : String) : Bool := charListLe a.toList b.toList

/-- `holding.industry_sector || classifySector(holding.industry_raw)`. -/
def resolveSector (h : Holding) : Sector :=
  h.industry_sector.getD (classifySector h.industry_raw)

/-- `(h.fair_value || 0)`: null fair value contributes 0 to sums. -/
def fairValueOf (h : Holding) : ℚ := h.fair_value.getD 0

/-- The per-BDC aggregation output: `totalFairValue`, `latestPeriod` and the
`sectorExposures` record (one key per sector, in `SECTORS` order). -/
structure Exposure where
  total_fair_value : ℚ
  period_date : String
  sector_exposures : List (Sector × ℚ)
deriving DecidableEq, Repr

/-- Per-BDC aggregation inside `getBDCData` (part_002 lines 39–70).  The
input models the holdings rows returned by the store query ordered by
`period_date` descending (`.order('period_date', ascending: false)`);
theorems about period selection carry that ordering as a hypothesis.
Monetary values are `ℚ` (exact rationals in place of JS doubles). -/
def aggregate (holdings : List Holding) : Exposure :=
  match holdings with
  | [] =>
    { total_fair_value := 0, period_date := "",
      sector_exposures := SECTORS.map (fun s => (s, 0)) }
  | h0 :: _ =>
    let latestPeriod := h0.period_date
    let latestHoldings := holdings.filter (fun h => h.period_date = latestPeriod)
    let totalFairValue := latestHoldings.foldl (fun sum h => sum + fairValueOf h) 0
    let sectorTotals : Sector → ℚ :=
      latestHoldings.foldl
        (fun acc h =>
          Function.update acc (resolveSector h) (acc (resolveSector h) + fairValueOf h))
        (fun _ => 0)
    let sectorExposures :=
      if 0 < totalFairValue then
        SECTORS.map (fun s => (s, sectorTotals s / totalFairValue * 100))
      else SECTORS.map (fun s => (s, 0))
    { total_fair_value := totalFairValue, period_date := latestPeriod,
      sector_exposures := sectorExposures }

/-! ### Entity metrics merge (`getBDCData` results loop, part_002) -/

/-- A row of the `bdcs` table with its scalar financial metrics
(part_000/part_001 schema); every metric is independently nullable. -/
structure BDCRecord where
  cik : String
  name : String
  ticker : Option String
  dividend_yield : Option ℚ
  dividend_growth_3yr : Option ℚ
  nav_per_share : Option ℚ
  price : Option ℚ
  price_to_nav : Option ℚ
  non_accrual_pct : Option ℚ
  debt_to_equity : Option ℚ
  net_investment_income_yield : Option ℚ
  total_assets : Option ℚ
  updated_at : Option String
deriving DecidableEq, Repr

/-- The composite record pushed onto `results` in `getBDCData`. -/
structure BDCSectorExposure where
  cik : String
  name : String
  ticker : Option String
  total_fair_value : ℚ
  period_date : String
  sector_exposures : List (Sector × ℚ)
  dividend_yield : Option ℚ
  dividend_growth_3yr : Option ℚ
  nav_per_share : Option ℚ
  price : Option ℚ
  price_to_nav : Option ℚ
  non_accrual_pct : Option ℚ
  debt_to_equity : Option ℚ
  net_investment_income_yield : Option ℚ
deriving DecidableEq, Repr

/-- One iteration of the `getBDCData` results loop; `none` models the
`continue` (skip) branch: `totalFairValue === 0 && bdc.price == null &&
bdc.dividend_yield == null`. -/
def mergeBDC (bdc : BDCRecord) (holdings : List Holding) : Option BDCSectorExposure :=
  let e := aggregate holdings
  if e.total_fair_value = 0 ∧ bdc.price = none ∧ bdc.dividend_yield = none then none
  else
    some { cik := bdc.cik, name := bdc.name, ticker := bdc.ticker,
           total_fair_value := e.total_fair_value, period_date := e.period_date,
           sector_exposures := e.sector_exposures,
           dividend_yield := bdc.dividend_yield,
           dividend_growth_3yr := bdc.dividend_growth_3yr,
           nav_per_share := bdc.nav_per_share, price := bdc.price,
           price_to_nav := bdc.price_to_nav, non_accrual_pct := bdc.non_accrual_pct,
           debt_to_equity := bdc.debt_to_equity,
           net_investment_income_yield := bdc.net_investment_income_yield }

/-- The full `getBDCData` results loop: each BDC paired with the holdings
rows fetched for it. -/
def getBDCData (input : List (BDCRecord × List Holding)) : List BDCSectorExposure :=
  input.filterMap (fun p => mergeBDC p.1 p.2)

/-! ### Dashboard average metrics (`Home`, part_002) -/

/-- JS truthiness of a nullable numeric field (`filter(b => b.metric)`):
null and 0 are both falsy. -/
def truthyNum (v : Option ℚ) : Bool :=
  match v with
  | none => false
  | some x => !(x == 0)

/-- The dashboard's average-metric computation:
`data.filter(b => b.m).reduce((s, b) => s + (b.m || 0), 0) /
 data.filter(b => b.m).length`.
(In `ℚ` the empty-filter case gives 0/0 = 0 where JS gives NaN; no claim
depends on the empty case.) -/
def avgMetric (values : List (Option ℚ)) : ℚ :=
  let included := values.filter truthyNum
  (included.foldl (fun sum v => sum + v.getD 0) 0) / included.length

/-! ### Watchlist analyze route (`src/app/api/watchlist/analyze/route.ts`) -/

/-- The quote collaborator's result (`FMPTickerData` from fmp.ts). -/
structure FMPTickerData where
  companyName : String
  description : String
  sector : String
  industry : String
  mktCap : ℚ
  price : ℚ
  revenue : ℚ
  netIncome : ℚ
  eps : ℚ
  peRatio : ℚ
  pbRatio : ℚ
  returnOnEquity : ℚ
  evToEBITDA : ℚ
  ytdChange : ℚ
  oneYearChange : ℚ
deriving DecidableEq, Repr

/-- The AI collaborator's parsed response (`AIAnalysis`). -/
structure AIAnalysis where
  risks : List String
  strengths : List String
  evaluation : String
  revenue : ℚ
  netIncome : ℚ
  eps : ℚ
  peRatio : ℚ
  pbRatio : ℚ
  evEbitda : ℚ
deriving DecidableEq, Repr

/-- A cached watchlist item.  `analyzed_at`/`created_at` are integer
millisecond timestamps (`new Date(s).getTime()` applied to the stored ISO
string); the random-UUID `id` field is not modelled. -/
structure WatchlistItem where
  ticker : String
  company_name : String
  description : String
  sector : String
  industry : String
  market_cap : ℚ
  price : ℚ
  revenue : ℚ
  net_income : ℚ
  eps : ℚ
  pe_ratio : ℚ
  pb_ratio : ℚ
  ev_ebitda : ℚ
  roe : ℚ
  ytd_change : ℚ
  one_year_change : ℚ
  risks : List String
  strengths : List String
  evaluation : String
  analyzed_at : ℤ
  created_at : ℤ
deriving DecidableEq, Repr

/-- `isRecent(dateStr, hours)`:
`new Date(dateStr).getTime() > Date.now() - hours * 60 * 60 * 1000`. -/
def isRecent (analyzedAt nowMs hours : ℤ) : Bool :=
  nowMs - hours * 60 * 60 * 1000 < analyzedAt

/-- The placeholder analysis substituted when `analyzeWithClaude` throws. -/
def fallbackAnalysis : AIAnalysis :=
  { risks := ["AI analysis unavailable - check API key credits"],
    strengths := ["AI analysis unavailable - check API key credits"],
    evaluation := "AI analysis could not be generated. Financial data shown above is from live market data.",
    revenue := 0, netIncome := 0, eps := 0, peRatio := 0, pbRatio := 0, evEbitda := 0 }

/-- JS `a || b` on numbers: 0 is falsy. -/
def jsOrNum (a b : ℚ) : ℚ := if a = 0 then b else a

/-- The `item` literal built in the analyze loop (route lines 58–83). -/
def buildItem (ticker : String) (now : ℤ) (fmpData : FMPTickerData)
    (analysis : AIAnalysis) : WatchlistItem :=
  { ticker := ticker, company_name := fmpData.companyName,
    description := fmpData.description, sector := fmpData.sector,
    industry := fmpData.industry, market_cap := fmpData.mktCap,
    price := fmpData.price,
    revenue := jsOrNum analysis.revenue fmpData.revenue,
    net_income := jsOrNum analysis.netIncome fmpData.netIncome,
    eps := jsOrNum analysis.eps fmpData.eps,
    pe_ratio := jsOrNum analysis.peRatio fmpData.peRatio,
    pb_ratio := jsOrNum analysis.pbRatio fmpData.pbRatio,
    ev_ebitda := jsOrNum analysis.evEbitda fmpData.evToEBITDA,
    roe := fmpData.returnOnEquity, ytd_change := fmpData.ytdChange,
    one_year_change := fmpData.oneYearChange,
    risks := analysis.risks, strengths := analysis.strengths,
    evaluation := analysis.evaluation,
    analyzed_at := now, created_at := now }

/-- The refresh path: build the item from the quote data and the AI result,
substituting `fallbackAnalysis` when the AI call failed (`none`). -/
def refreshItem (t : String) (now : ℤ) (q : FMPTickerData)
    (ai : Option AIAnalysis) : WatchlistItem :=
  buildItem t now q (ai.getD fallbackAnalysis)

/-- External calls and cache writes performed by the handler, in order. -/
inductive Effect where
  | quoteFetch (ticker : String)
  | aiCall (ticker : String)
  | cacheWrite (ticker : String)
deriving DecidableEq, Repr

/-- Per-ticker body of the analyze loop (route lines 32–86): cache lookup,
freshness check, quote fetch, AI attempt, upsert.  `quote t = none` models
`fetchTickerData` throwing (per-ticker error entry); `ai t = none` models
`analyzeWithClaude` throwing (placeholder substitution). -/
def getOrRefresh (cache : String → Option WatchlistItem) (now : ℤ)
    (quote : String → Option FMPTickerData) (ai : String → Option AIAnalysis)
    (t : String) : Except String WatchlistItem × List Effect :=
  match cache t with
  | some c =>
    if isRecent c.analyzed_at now 24 then (.ok c, [])
    else
      match quote t with
      | none => (.error "Ticker not found", [.quoteFetch t])
      | some q =>
        (.ok (refreshItem t now q (ai t)), [.quoteFetch t, .aiCall t, .cacheWrite t])
  | none =>
    match quote t with
    | none => (.error "Ticker not found", [.quoteFetch t])
    | some q =>
      (.ok (refreshItem t now q (ai t)), [.quoteFetch t, .aiCall t, .cacheWrite t])

/-- HTTP outcome of the analyze handler. -/
inductive PostResponse where
  | badRequest (error : String)
  | ok (results : List WatchlistItem) (errors : List (String × String))
deriving DecidableEq, Repr

/-- `t.trim().toUpperCase()` computed character-wise. -/
def cleanTicker (t : String) : String :=
  String.mk ((trimChars t.toList).map Char.toUpper)

/-- The `POST` handler of the analyze route: validation, ticker cleaning,
then the sequential per-ticker loop.  `tickers = none` models a request
body whose `tickers` is not an array. -/
def POST (tickers : Option (List String)) (cache : String → Option WatchlistItem)
    (now : ℤ) (quote : String → Option FMPTickerData)
    (ai : String → Option AIAnalysis) : PostResponse × List Effect :=
  match tickers with
  | none => (.badRequest "No tickers provided", [])
  | some ts =>
    if ts.length = 0 then (.badRequest "No tickers provided", [])
    else if 25 < ts.length then (.badRequest "Maximum 25 tickers at a time", [])
    else
      let cleanTickers := (ts.map cleanTicker).filter (fun t => 0 < t.length && t.length ≤ 10)
      let final := cleanTickers.foldl
        (fun (acc : List WatchlistItem × List (String × String) × List Effect) t =>
          match getOrRefresh cache now quote ai t with
          | (.ok item, eff) => (acc.1 ++ [item], acc.2.1, acc.2.2 ++ eff)
          | (.error e, eff) => (acc.1, acc.2.1 ++ [(t, e)], acc.2.2 ++ eff))
        ([], [], [])
      (.ok final.1 final.2.1, final.2.2)

/-! ### Periodic price refresh (`src/app/api/cron/refresh-prices/route.ts`) -/

/-- The fields returned by the Yahoo collaborator (`fetchBDCData`). -/
structure YahooBDCData where
  price : Option ℚ
  dividend_yield : Option ℚ
  nav_per_share : Option ℚ
  debt_to_equity : Option ℚ
deriving DecidableEq, Repr

/-- `Math.round(x)`: round half toward +∞. -/
def jsRound (x : ℚ) : ℤ := ⌊x + 1 / 2⌋

/-- The `updateFields` object of the refresh loop (route lines 34–52);
`updated_at` is always present, the rest only when fresh data exists. -/
structure UpdateFields where
  updated_at : String
  price : Option ℚ
  dividend_yield : Option ℚ
  nav_per_share : Option ℚ
  debt_to_equity : Option ℚ
  price_to_nav : Option ℚ
deriving DecidableEq, Repr

/-- Construction of `updateFields` from fresh Yahoo data. -/
def buildUpdateFields (yahooData : YahooBDCData) (now : String) : UpdateFields :=
  { updated_at := now,
    price := yahooData.price,
    dividend_yield := yahooData.dividend_yield,
    nav_per_share := yahooData.nav_per_share,
    debt_to_equity := yahooData.debt_to_equity,
    price_to_nav :=
      match yahooData.price, yahooData.nav_per_share with
      | some p, some n => if 0 < n then some ((jsRound (p / n * 100) : ℚ) / 100) else none
      | _, _ => none }

/-- Number of keys of `updateFields` beyond `updated_at`
(`Object.keys(updateFields).length - 1`). -/
def meaningfulFieldCount (u : UpdateFields) : ℕ :=
  (if u.price.isSome then 1 else 0) + (if u.dividend_yield.isSome then 1 else 0) +
  (if u.nav_per_share.isSome then 1 else 0) + (if u.debt_to_equity.isSome then 1 else 0) +
  (if u.price_to_nav.isSome then 1 else 0)

/-- The SQL `update(updateFields)`: keys present in the patch overwrite the
stored row, absent keys leave it unchanged. -/
def applyUpdate (b : BDCRecord) (u : UpdateFields) : BDCRecord :=
  { b with
    updated_at := some u.updated_at,
    price := if u.price.isSome then u.price else b.price,
    dividend_yield := if u.dividend_yield.isSome then u.dividend_yield else b.dividend_yield,
    nav_per_share := if u.nav_per_share.isSome then u.nav_per_share else b.nav_per_share,
    debt_to_equity := if u.debt_to_equity.isSome then u.debt_to_equity else b.debt_to_equity,
    price_to_nav := if u.price_to_nav.isSome then u.price_to_nav else b.price_to_nav }

/-- Per-item status reported by the refresh job. -/
inductive RefreshStatus where
  | updated
  | skipped
  | error
deriving DecidableEq, Repr

/-- One iteration of the refresh loop for a BDC with a ticker
(route lines 28–75); `fetchResult = none` models `fetchBDCData` throwing.
Returns the stored row after the iteration and the per-item status. -/
def refreshOne (b : BDCRecord) (fetchResult : Option YahooBDCData) (now : String) :
    BDCRecord × RefreshStatus :=
  match fetchResult with
  | none => (b, .error)
  | some yahooData =>
    let updateFields := buildUpdateFields yahooData now
    if meaningfulFieldCount updateFields = 0 then (b, .skipped)
    else (applyUpdate b updateFields, .updated)

/-! ## Theorems -/

/-! ### Classifier lemmas -/

/-- The classify loop skips an entry whose keywords do not match. -/
theorem classifyLoop_cons_skip {ind : String} {s : Sector} {kws : List String}
    {rest : List (Sector × List String)} (h : matchesKeywords ind kws = false) :
    classifyLoop ind ((s, kws) :: rest) = classifyLoop ind rest := by
  by_cases hs : s = Sector.other
  · simp [classifyLoop, hs]
  · simp [classifyLoop, hs, h]

/-- The classify loop returns the sector of the first matching entry. -/
theorem classifyLoop_cons_match {ind : String} {s : Sector} {kws : List String}
    {rest : List (Sector × List String)} (hs : s ≠ Sector.other)
    (h : matchesKeywords ind kws = true) :
    classifyLoop ind ((s, kws) :: rest) = s := by
  simp [classifyLoop, hs, h]

/-- When no entry of the table matches, the loop falls through to 'Other'. -/
theorem classifyLoop_eq_other {ind : String} {table : List (Sector × List String)}
    (h : ∀ p ∈ table, matchesKeywords ind p.2 = false) :
    classifyLoop ind table = Sector.other := by
  induction table with
  | nil => rfl
  | cons p rest ih =>
    obtain ⟨s, kws⟩ := p
    rw [classifyLoop_cons_skip (h _ (List.mem_cons_self _ _))]
    exact ih fun q hq => h q (List.mem_cons_of_mem _ hq)

/-- C1: for every text containing keywords of a sector `a` declared earlier
in the taxonomy and a sector `b` declared later (and of no sector declared
before `a`), `classifySector` returns `a`: the scan is first-match-wins in
declared sector order, not best-match. -/
theorem classifySector_first_match_wins (text : String) (a b : Sector)
    (hne : text ≠ "") (hab : sectorIdx a < sectorIdx b)
    (ha : sectorMatches (normalizeIndustry text) a = true)
    (hb : sectorMatches (normalizeIndustry text) b = true)
    (hmin : ∀ c : Sector, sectorIdx c < sectorIdx a →
      sectorMatches (normalizeIndustry text) c = false) :
    classifySector (some text) = a := by
  cases a with
  | softwareTechnology =>
    simp only [sectorMatches, keywordsFor, SECTOR_KEYWORDS] at ha
    simp at ha
    simp only [classifySector, if_neg hne, SECTOR_KEYWORDS]
    rw [classifyLoop_cons_match (by decide) ha]
  | healthcare =>
    have h0 := hmin .softwareTechnology (by decide)
    simp only [sectorMatches, keywordsFor, SECTOR_KEYWORDS] at ha h0
    simp at ha h0
    simp only [classifySector, if_neg hne, SECTOR_KEYWORDS]
    rw [classifyLoop_cons_skip h0, classifyLoop_cons_match (by decide) ha]
  | businessServices =>
    have h0 := hmin .softwareTechnology (by decide)
    have h1 := hmin .healthcare (by decide)
    simp only [sectorMatches, keywordsFor, SECTOR_KEYWORDS] at ha h0 h1
    simp at ha h0 h1
    simp only [classifySector, if_neg hne, SECTOR_KEYWORDS]
    rw [classifyLoop_cons_skip h0, classifyLoop_cons_skip h1,
        classifyLoop_cons_match (by decide) ha]
  | industrials =>
    have h0 := hmin .softwareTechnology (by decide)
    have h1 := hmin .healthcare (by decide)
    have h2 := hmin .businessServices (by decide)
    simp only [sectorMatches, keywordsFor, SECTOR_KEYWORDS] at ha h0 h1 h2
    simp at ha h0 h1 h2
    simp only [classifySector, if_neg hne, SECTOR_KEYWORDS]
    rw [classifyLoop_cons_skip h0, classifyLoop_cons_skip h1,
        classifyLoop_cons_skip h2, classifyLoop_cons_match (by decide) ha]
  | consumer =>
    have h0 := hmin .softwareTechnology (by decide)
    have h1 := hmin .healthcare (by decide)
    have h2 := hmin .businessServices (by decide)
    have h3 := hmin .industrials (by decide)
    simp only [sectorMatches, keywordsFor, SECTOR_KEYWORDS] at ha h0 h1 h2 h3
    simp at ha h0 h1 h2 h3
    simp only [classifySector, if_neg hne, SECTOR_KEYWORDS]
    rw [classifyLoop_cons_skip h0, classifyLoop_cons_skip h1,
        classifyLoop_cons_skip h2, classifyLoop_cons_skip h3,
        classifyLoop_cons_match (by decide) ha]
  | financialServices =>
    have h0 := hmin .softwareTechnology (by decide)
    have h1 := hmin .healthcare (by decide)
    have h2 := hmin .businessServices (by decide)
    have h3 := hmin .industrials (by decide)
    have h4 := hmin .consumer (by decide)
    simp only [sectorMatches, keywordsFor, SECTOR_KEYWORDS] at ha h0 h1 h2 h3 h4
    simp at ha h0 h1 h2 h3 h4
    simp only [classifySector, if_neg hne, SECTOR_KEYWORDS]
    rw [classifyLoop_cons_skip h0, classifyLoop_cons_skip h1,
        classifyLoop_cons_skip h2, classifyLoop_cons_skip h3,
        classifyLoop_cons_skip h4, classifyLoop_cons_match (by decide) ha]
  | mediaTelecom =>
    have h0 := hmin .softwareTechnology (by decide)
    have h1 := hmin .healthcare (by decide)
    have h2 := hmin .businessServices (by decide)
    have h3 := hmin .industrials (by decide)
    have h4 := hmin .consumer (by decide)
    have h5 := hmin .financialServices (by decide)
    simp only [sectorMatches, keywordsFor, SECTOR_KEYWORDS] at ha h0 h1 h2 h3 h4 h5
    simp at ha h0 h1 h2 h3 h4 h5
    simp only [classifySector, if_neg hne, SECTOR_KEYWORDS]
    rw [classifyLoop_cons_skip h0, classifyLoop_cons_skip h1,
        classifyLoop_cons_skip h2, classifyLoop_cons_skip h3,
        classifyLoop_cons_skip h4, classifyLoop_cons_skip h5,
        classifyLoop_cons_match (by decide) ha]
  | energy =>
    have h0 := hmin .softwareTechnology (by decide)
    have h1 := hmin .healthcare (by decide)
    have h2 := hmin .businessServices (by decide)
    have h3 := hmin .industrials (by decide)
    have h4 := hmin .consumer (by decide)
    have h5 := hmin .financialServices (by decide)
    have h6 := hmin .mediaTelecom (by decide)
    simp only [sectorMatches, keywordsFor, SECTOR_KEYWORDS] at ha h0 h1 h2 h3 h4 h5 h6
    simp at ha h0 h1 h2 h3 h4 h5 h6
    simp only [classifySector, if_neg hne, SECTOR_KEYWORDS]
    rw [classifyLoop_cons_skip h0, classifyLoop_cons_skip h1,
        classifyLoop_cons_skip h2, classifyLoop_cons_skip h3,
        classifyLoop_cons_skip h4, classifyLoop_cons_skip h5,
        classifyLoop_cons_skip h6, classifyLoop_cons_match (by decide) ha]
  | realEstate =>
    have h0 := hmin .softwareTechnology (by decide)
    have h1 := hmin .healthcare (by decide)
    have h2 := hmin .businessServices (by decide)
    have h3 := hmin .industrials (by decide)
    have h4 := hmin .consumer (by decide)
    have h5 := hmin .financialServices (by decide)
    have h6 := hmin .mediaTelecom (by decide)
    have h7 := hmin .energy (by decide)
    simp only [sectorMatches, keywordsFor, SECTOR_KEYWORDS] at ha h0 h1 h2 h3 h4 h5 h6 h7
    simp at ha h0 h1 h2 h3 h4 h5 h6 h7
    simp only [classifySector, if_neg hne, SECTOR_KEYWORDS]
    rw [classifyLoop_cons_skip h0, classifyLoop_cons_skip h1,
        classifyLoop_cons_skip h2, classifyLoop_cons_skip h3,
        classifyLoop_cons_skip h4, classifyLoop_cons_skip h5,
        classifyLoop_cons_skip h6, classifyLoop_cons_skip h7,
        classifyLoop_cons_match (by decide) ha]
  | other =>
    exact absurd hab (by cases b <;> decide)

/-- Witness for C1: "healthcare staffing services" contains a Healthcare
keyword and a Business Services keyword; Healthcare is declared earlier and
wins. -/
theorem classifySector_first_match_wins_witness :
    classifySector (some "healthcare staffing services") = Sector.healthcare :=
  classifySector_first_match_wins "healthcare staffing services"
    .healthcare .businessServices (by decide) (by decide) (by decide) (by decide)
    (by decide)

/-- C2: `classifySector` is total — it always returns one of the 10 sectors
of the taxonomy — and returns the fallback sector 'Other' for null input,
empty input, and any text matching no sector keyword (whitespace-only texts
normalize to the empty text and match nothing). -/
theorem classifySector_total_and_fallback (input : Option String) :
    classifySector input ∈ SECTORS ∧
      ((input = none ∨ ∃ s, input = some s ∧
          matchesAnyKeyword (normalizeIndustry s) = false) →
        classifySector input = Sector.other) := by
  constructor
  · have htot : ∀ t : Sector, t ∈ SECTORS := by decide
    exact htot _
  · rintro (rfl | ⟨s, rfl, hno⟩)
    · rfl
    · by_cases hs : s = ""
      · simp [classifySector, hs]
      · simp only [classifySector, if_neg hs]
        apply classifyLoop_eq_other
        simp only [matchesAnyKeyword, List.any_eq_false, Bool.not_eq_true] at hno
        exact hno

/-- Witness for C2 at a whitespace-only input: it matches no keyword and
classifies to 'Other'. -/
theorem classifySector_total_and_fallback_witness :
    classifySector (some "   ") ∈ SECTORS ∧ classifySector (some "   ") = Sector.other :=
  ⟨(classifySector_total_and_fallback (some "   ")).1,
   (classifySector_total_and_fallback (some "   ")).2 (Or.inr ⟨"   ", rfl, by decide⟩)⟩

/-! ### Aggregation lemmas -/

/-- The total-fair-value fold is the sum of the fair values. -/
theorem foldl_add_fairValue (l : List Holding) (a : ℚ) :
    l.foldl (fun sum h => sum + fairValueOf h) a = a + (l.map fairValueOf).sum := by
  induction l generalizing a with
  | nil => simp
  | cons h t ih => simp [List.foldl_cons, ih, add_assoc]

/-- Updating one sector's bucket changes the sum over all sectors by the
difference. -/
theorem sum_SECTORS_update (acc : Sector → ℚ) (k : Sector) (v : ℚ) :
    (SECTORS.map (Function.update acc k v)).sum
      = (SECTORS.map acc).sum - acc k + v := by
  cases k <;> simp [SECTORS, Function.update_apply] <;> ring

/-- The per-sector bucket fold preserves total mass: summed over all
sectors it adds exactly the fair values of the folded holdings. -/
theorem sum_SECTORS_sectorTotals (l : List Holding) (acc : Sector → ℚ) :
    (SECTORS.map (l.foldl (fun acc h =>
        Function.update acc (resolveSector h) (acc (resolveSector h) + fairValueOf h)) acc)).sum
      = (SECTORS.map acc).sum + (l.map fairValueOf).sum := by
  induction l generalizing acc with
  | nil => simp
  | cons h t ih =>
    simp only [List.foldl_cons, ih, sum_SECTORS_update, List.map_cons, List.sum_cons]
    ring

/-- Constants factor out of a sector-indexed sum. -/
theorem sum_map_mul_const (l : List Sector) (f : Sector → ℚ) (c : ℚ) :
    (l.map (fun s => f s * c)).sum = (l.map f).sum * c := by
  induction l with
  | nil => simp
  | cons s t ih =>
    simp [ih]
    ring

/-- C3: for any non-empty holding set the aggregator's output has a key for
every sector of the taxonomy; when `totalValue > 0` the sector percentages
sum to exactly 100 (hence within any floating tolerance); when
`totalValue = 0` every sector percentage is exactly 0. -/
theorem aggregate_percentages (holdings : List Holding) (hne : holdings ≠ []) :
    ((aggregate holdings).sector_exposures.map Prod.fst = SECTORS) ∧
      (0 < (aggregate holdings).total_fair_value →
        ((aggregate holdings).sector_exposures.map Prod.snd).sum = 100) ∧
      ((aggregate holdings).total_fair_value = 0 →
        ∀ p ∈ (aggregate holdings).sector_exposures, p.2 = 0) := by
  cases holdings with
  | nil => exact absurd rfl hne
  | cons h0 t =>
    simp only [aggregate]
    set L := (h0 :: t).filter (fun h => h.period_date = h0.period_date) with hL
    set T := L.foldl (fun sum h => sum + fairValueOf h) 0 with hTd
    set tot := L.foldl (fun acc h =>
        Function.update acc (resolveSector h) (acc (resolveSector h) + fairValueOf h))
      (fun _ => (0 : ℚ)) with htotd
    by_cases hpos : 0 < T
    · simp only [if_pos hpos]
      refine ⟨rfl, fun _ => ?_, fun hzero => absurd hpos (by simp [hzero])⟩
      show (SECTORS.map (fun s => tot s / T * 100)).sum = 100
      have hfun : (fun s => tot s / T * 100) = fun s => tot s * (100 / T) :=
        funext fun s => by ring
      rw [hfun, sum_map_mul_const]
      have htot : (SECTORS.map tot).sum = T := by
        rw [htotd, sum_SECTORS_sectorTotals, hTd, foldl_add_fairValue]
        simp [SECTORS]
      rw [htot]
      have hTne : T ≠ 0 := ne_of_gt hpos
      field_simp
    · simp only [if_neg hpos]
      refine ⟨rfl, fun hgt => absurd hgt hpos, fun _ p hp => ?_⟩
      simp only [List.mem_map] at hp
      obtain ⟨s, _, rfl⟩ := hp
      rfl

unseal Rat.add Rat.mul Rat.inv in
/-- Witness for C3 at a one-holding portfolio with positive fair value. -/
theorem aggregate_percentages_witness :
    ((aggregate [⟨"1", "2024-09-30", "Acme", none, some Sector.industrials,
        some 50⟩]).sector_exposures.map Prod.fst = SECTORS) ∧
      ((aggregate [⟨"1", "2024-09-30", "Acme", none, some Sector.industrials,
        some 50⟩]).sector_exposures.map Prod.snd).sum = 100 := by
  have h := aggregate_percentages
    [⟨"1", "2024-09-30", "Acme", none, some Sector.industrials, some 50⟩] (by decide)
  exact ⟨h.1, h.2.1 (by decide)⟩

/-- C4: on the store's descending-by-period holdings list, the reported
period is the maximum period string present, and the whole aggregation
result is computed from the max-period holdings alone — holdings of any
other period contribute nothing to the total or to any sector
percentage. -/
theorem aggregate_latest_period (holdings : List Holding) (hne : holdings ≠ [])
    (hsorted : List.Pairwise
      (fun a b => periodLe b.period_date a.period_date = true) holdings) :
    (∀ h ∈ holdings, periodLe h.period_date (aggregate holdings).period_date = true) ∧
      (∃ h ∈ holdings, h.period_date = (aggregate holdings).period_date) ∧
      aggregate holdings =
        aggregate (holdings.filter
          (fun h => h.period_date = (aggregate holdings).period_date)) := by
  cases holdings with
  | nil => exact absurd rfl hne
  | cons h0 t =>
    have hP : (aggregate (h0 :: t)).period_date = h0.period_date := rfl
    rw [hP]
    refine ⟨?_, ⟨h0, List.mem_cons_self _ _, rfl⟩, ?_⟩
    · intro h hh
      rcases List.mem_cons.mp hh with rfl | hht
      · have hrefl : ∀ l : List Char, charListLe l l = true := by
          intro l
          induction l with
          | nil => rfl
          | cons c cs ih => simp [charListLe, ih]
        exact hrefl _
      · exact (List.pairwise_cons.mp hsorted).1 h hht
    · have hfilter : (h0 :: t).filter (fun h => h.period_date = h0.period_date)
          = h0 :: t.filter (fun h => h.period_date = h0.period_date) :=
        List.filter_cons_of_pos (by simp)
      have hidem : (h0 :: t.filter (fun h => h.period_date = h0.period_date)).filter
            (fun h => h.period_date = h0.period_date)
          = h0 :: t.filter (fun h => h.period_date = h0.period_date) := by
        rw [List.filter_cons_of_pos (by simp)]
        have hff : (t.filter (fun h => h.period_date = h0.period_date)).filter
              (fun h => h.period_date = h0.period_date)
            = t.filter (fun h => h.period_date = h0.period_date) := by
          apply List.filter_eq_self.mpr
          intro a ha
          exact (List.mem_filter.mp ha).2
        rw [hff]
      rw [hfilter]
      simp only [aggregate]
      rw [hfilter, hidem]

unseal Rat.add Rat.mul Rat.inv in
/-- Witness for C4 at the spec's two-period example: the 2024-09-30 holding
is kept, the 2024-06-30 holding contributes nothing. -/
theorem aggregate_latest_period_witness :
    (∀ h ∈ ([⟨"1", "2024-09-30", "I", none, some Sector.industrials, some 50⟩,
        ⟨"1", "2024-06-30", "H", none, some Sector.healthcare, some 100⟩] : List Holding),
      periodLe h.period_date
        (aggregate [⟨"1", "2024-09-30", "I", none, some Sector.industrials, some 50⟩,
          ⟨"1", "2024-06-30", "H", none, some Sector.healthcare, some 100⟩]).period_date = true) ∧
      (∃ h ∈ ([⟨"1", "2024-09-30", "I", none, some Sector.industrials, some 50⟩,
          ⟨"1", "2024-06-30", "H", none, some Sector.healthcare, some 100⟩] : List Holding),
        h.period_date =
          (aggregate [⟨"1", "2024-09-30", "I", none, some Sector.industrials, some 50⟩,
            ⟨"1", "2024-06-30", "H", none, some Sector.healthcare, some 100⟩]).period_date) ∧
      aggregate [⟨"1", "2024-09-30", "I", none, some Sector.industrials, some 50⟩,
          ⟨"1", "2024-06-30", "H", none, some Sector.healthcare, some 100⟩] =
        aggregate (([⟨"1", "2024-09-30", "I", none, some Sector.industrials, some 50⟩,
            ⟨"1", "2024-06-30", "H", none, some Sector.healthcare, some 100⟩] : List Holding).filter
          (fun h => h.period_date =
            (aggregate [⟨"1", "2024-09-30", "I", none, some Sector.industrials, some 50⟩,
              ⟨"1", "2024-06-30", "H", none, some Sector.healthcare, some 100⟩]).period_date)) :=
  aggregate_latest_period
    [⟨"1", "2024-09-30", "I", none, some Sector.industrials, some 50⟩,
     ⟨"1", "2024-06-30", "H", none, some Sector.healthcare, some 100⟩]
    (by decide) (by decide)

/-! ### Entity metrics merge -/

/-- C5 counterexample: an entity with zero total fair value, null price and
null dividend yield but a populated `nav_per_share` scalar metric is
excluded from the composite result set — the skip rule tests only `price`
and `dividend_yield`, so the claim that every entity with at least one
populated scalar metric is included fails. -/
theorem mergeBDC_drops_scalar_only_entity :
    getBDCData [(⟨"0001", "X", none, none, none, some 7, none, none, none,
        none, none, none, none⟩, [])] = [] ∧
      (⟨"0001", "X", none, none, none, some 7, none, none, none,
        none, none, none, none⟩ : BDCRecord).nav_per_share = some 7 := by
  constructor
  · rfl
  · rfl

/-- C5 (amended): the merge step excludes exactly the entities whose total
fair value is zero AND whose `price` and `dividend_yield` are both null;
no other scalar metric affects inclusion. -/
theorem mergeBDC_inclusion_rule (bdc : BDCRecord) (holdings : List Holding) :
    (mergeBDC bdc holdings ≠ none ↔
      ¬((aggregate holdings).total_fair_value = 0 ∧ bdc.price = none ∧
        bdc.dividend_yield = none)) ∧
      getBDCData [(bdc, holdings)] = (mergeBDC bdc holdings).toList := by
  constructor
  · by_cases hc : (aggregate holdings).total_fair_value = 0 ∧ bdc.price = none ∧
        bdc.dividend_yield = none
    · simp [mergeBDC, hc]
    · simp [mergeBDC, hc]
  · simp only [getBDCData, List.filterMap]
    cases mergeBDC bdc holdings <;> rfl

/-! ### Dashboard averages -/

unseal Rat.add Rat.mul Rat.inv in
/-- C9: the dashboard average excludes null metric entries from both the
numerator and the denominator rather than coercing them to 0: over the
entity metrics [10, null, 20] the average is 15 (not 10), and inserting a
null entry at any position never changes the average. -/
theorem avgMetric_excludes_null :
    avgMetric [some 10, none, some 20] = 15 ∧
      ∀ l1 l2 : List (Option ℚ), avgMetric (l1 ++ none :: l2) = avgMetric (l1 ++ l2) := by
  constructor
  · decide
  · intro l1 l2
    simp [avgMetric, List.filter_append, truthyNum]

/-! ### Watchlist cache freshness and analyze handler -/

/-- C6: a cached item is reused — returned unchanged with no external quote
call, no AI call and no cache write — iff `now - analyzed_at < 24 hours`;
when it is at least 24 hours old a full refresh runs: quote fetch, then AI
attempt, then cache write, producing a freshly built item. -/
theorem getOrRefresh_freshness (c : WatchlistItem) (now : ℤ)
    (cache : String → Option WatchlistItem) (quote : String → Option FMPTickerData)
    (ai : String → Option AIAnalysis) (t : String) (q : FMPTickerData)
    (hc : cache t = some c) (hq : quote t = some q) :
    (now - c.analyzed_at < 24 * 60 * 60 * 1000 →
      getOrRefresh cache now quote ai t = (.ok c, [])) ∧
      (24 * 60 * 60 * 1000 ≤ now - c.analyzed_at →
        getOrRefresh cache now quote ai t =
          (.ok (refreshItem t now q (ai t)),
            [.quoteFetch t, .aiCall t, .cacheWrite t])) := by
  constructor
  · intro hfresh
    have hrec : isRecent c.analyzed_at now 24 = true := by
      simp only [isRecent, decide_eq_true_eq]
      omega
    simp [getOrRefresh, hc, hrec]
  · intro hstale
    have hrec : isRecent c.analyzed_at now 24 = false := by
      simp only [isRecent, decide_eq_false_iff_not, not_lt]
      omega
    simp [getOrRefresh, hc, hrec, hq]

/-- Witness for C6: a 23-hour-old cached item (analyzed_at = 0,
now = 82800000 ms) is reused with no effects; a 25-hour-old one
(now = 90000000 ms) triggers the full refresh. -/
theorem getOrRefresh_freshness_witness :
    (getOrRefresh
        (fun _ => some ⟨"AAPL", "", "", "", "", 0, 0, 0, 0, 0, 0, 0, 0, 0, 0, 0, [], [], "", 0, 0⟩)
        82800000
        (fun _ => some ⟨"Apple", "d", "Tech", "Hardware", 1, 10, 2, 3, 4, 5, 6, 7, 8, 9, 11⟩)
        (fun _ => none) "AAPL" =
      (.ok ⟨"AAPL", "", "", "", "", 0, 0, 0, 0, 0, 0, 0, 0, 0, 0, 0, [], [], "", 0, 0⟩, [])) ∧
      (getOrRefresh
        (fun _ => some ⟨"AAPL", "", "", "", "", 0, 0, 0, 0, 0, 0, 0, 0, 0, 0, 0, [], [], "", 0, 0⟩)
        90000000
        (fun _ => some ⟨"Apple", "d", "Tech", "Hardware", 1, 10, 2, 3, 4, 5, 6, 7, 8, 9, 11⟩)
        (fun _ => none) "AAPL" =
      (.ok (refreshItem "AAPL" 90000000
          ⟨"Apple", "d", "Tech", "Hardware", 1, 10, 2, 3, 4, 5, 6, 7, 8, 9, 11⟩ none),
        [.quoteFetch "AAPL", .aiCall "AAPL", .cacheWrite "AAPL"])) :=
  ⟨(getOrRefresh_freshness
      ⟨"AAPL", "", "", "", "", 0, 0, 0, 0, 0, 0, 0, 0, 0, 0, 0, [], [], "", 0, 0⟩
      82800000 _ _ _ "AAPL"
      ⟨"Apple", "d", "Tech", "Hardware", 1, 10, 2, 3, 4, 5, 6, 7, 8, 9, 11⟩
      rfl rfl).1 (by decide),
   (getOrRefresh_freshness
      ⟨"AAPL", "", "", "", "", 0, 0, 0, 0, 0, 0, 0, 0, 0, 0, 0, [], [], "", 0, 0⟩
      90000000 _ _ _ "AAPL"
      ⟨"Apple", "d", "Tech", "Hardware", 1, 10, 2, 3, 4, 5, 6, 7, 8, 9, 11⟩
      rfl rfl).2 (by decide)⟩

/-- C7: a batch analyze request with more than 25 tickers, or with 0
tickers, is rejected with a client error before any external call or cache
write; a request with exactly 25 tickers passes validation and is
processed. -/
theorem POST_batch_limits (tickers : List String)
    (cache : String → Option WatchlistItem) (now : ℤ)
    (quote : String → Option FMPTickerData) (ai : String → Option AIAnalysis) :
    (25 < tickers.length →
      POST (some tickers) cache now quote ai =
        (.badRequest "Maximum 25 tickers at a time", [])) ∧
      (tickers.length = 0 →
        POST (some tickers) cache now quote ai =
          (.badRequest "No tickers provided", [])) ∧
      (tickers.length = 25 →
        ∃ results errors effects,
          POST (some tickers) cache now quote ai = (.ok results errors, effects)) := by
  refine ⟨fun hgt => ?_, fun h0 => ?_, fun h25 => ?_⟩
  · have h0' : ¬tickers.length = 0 := by omega
    simp [POST, h0', hgt]
  · simp [POST, h0]
  · have h0' : ¬tickers.length = 0 := by omega
    have hgt' : ¬25 < tickers.length := by omega
    simp only [POST, if_neg h0', if_neg hgt']
    exact ⟨_, _, _, rfl⟩

/-- Witness for C7: 26 identical tickers rejected, the empty batch
rejected, 25 tickers accepted. -/
theorem POST_batch_limits_witness :
    (POST (some (List.replicate 26 "A")) (fun _ => none) 0 (fun _ => none)
        (fun _ => none) = (.badRequest "Maximum 25 tickers at a time", [])) ∧
      (POST (some []) (fun _ => none) 0 (fun _ => none) (fun _ => none) =
        (.badRequest "No tickers provided", [])) ∧
      (∃ results errors effects,
        POST (some (List.replicate 25 "A")) (fun _ => none) 0 (fun _ => none)
          (fun _ => none) = (.ok results errors, effects)) :=
  ⟨(POST_batch_limits (List.replicate 26 "A") _ 0 _ _).1 (by decide),
   (POST_batch_limits [] _ 0 _ _).2.1 (by decide),
   (POST_batch_limits (List.replicate 25 "A") _ 0 _ _).2.2 (by decide)⟩

/-- C8 counterexample: when the AI call fails, the substituted placeholder
content has exactly ONE "unavailable" risk string and ONE "unavailable"
strength string, not 3 identical ones as claimed. -/
theorem refreshItem_placeholder_is_single :
    (refreshItem "AAPL" 0 ⟨"Apple", "d", "Tech", "Hardware", 1, 10, 2, 3, 4, 5, 6, 7, 8, 9, 11⟩
        none).risks.length = 1 ∧
      (refreshItem "AAPL" 0 ⟨"Apple", "d", "Tech", "Hardware", 1, 10, 2, 3, 4, 5, 6, 7, 8, 9, 11⟩
        none).strengths.length = 1 ∧
      ¬(refreshItem "AAPL" 0 ⟨"Apple", "d", "Tech", "Hardware", 1, 10, 2, 3, 4, 5, 6, 7, 8, 9, 11⟩
        none).risks.length = 3 := by
  refine ⟨rfl, rfl, by decide⟩

/-- C8 (amended): for every ticker whose quote fetch succeeds but whose
AI-analysis call fails, the per-ticker analysis still succeeds and produces
an item whose qualitative fields are fixed placeholder content — one
"unavailable" risk placeholder, one "unavailable" strength placeholder and
a fixed evaluation sentence — while the market-data fields hold the real
values obtained from the quote collaborator, and the item is cached. -/
theorem getOrRefresh_ai_failure (cache : String → Option WatchlistItem) (now : ℤ)
    (quote : String → Option FMPTickerData) (ai : String → Option AIAnalysis)
    (t : String) (q : FMPTickerData)
    (hc : ∀ c, cache t = some c → isRecent c.analyzed_at now 24 = false)
    (hq : quote t = some q) (hai : ai t = none) :
    getOrRefresh cache now quote ai t =
      (.ok (buildItem t now q fallbackAnalysis),
        [.quoteFetch t, .aiCall t, .cacheWrite t]) ∧
      (buildItem t now q fallbackAnalysis).risks =
        ["AI analysis unavailable - check API key credits"] ∧
      (buildItem t now q fallbackAnalysis).strengths =
        ["AI analysis unavailable - check API key credits"] ∧
      (buildItem t now q fallbackAnalysis).evaluation =
        "AI analysis could not be generated. Financial data shown above is from live market data." ∧
      (buildItem t now q fallbackAnalysis).price = q.price ∧
      (buildItem t now q fallbackAnalysis).market_cap = q.mktCap ∧
      (buildItem t now q fallbackAnalysis).company_name = q.companyName ∧
      (buildItem t now q fallbackAnalysis).revenue = q.revenue ∧
      (buildItem t now q fallbackAnalysis).ytd_change = q.ytdChange := by
  refine ⟨?_, rfl, rfl, rfl, rfl, rfl, rfl, ?_, rfl⟩
  · cases hcl : cache t with
    | none => simp [getOrRefresh, hcl, hq, hai, refreshItem]
    | some c =>
      have hrec := hc c hcl
      simp [getOrRefresh, hcl, hrec, hq, hai, refreshItem]
  · simp [buildItem, fallbackAnalysis, jsOrNum]

/-- Witness for C8 (amended) at a concrete quote with a failing AI call and
an empty cache. -/
theorem getOrRefresh_ai_failure_witness :
    getOrRefresh (fun _ => none) 0
        (fun _ => some ⟨"Apple", "d", "Tech", "Hardware", 1, 10, 2, 3, 4, 5, 6, 7, 8, 9, 11⟩)
        (fun _ => none) "AAPL" =
      (.ok (buildItem "AAPL" 0
          ⟨"Apple", "d", "Tech", "Hardware", 1, 10, 2, 3, 4, 5, 6, 7, 8, 9, 11⟩
          fallbackAnalysis),
        [.quoteFetch "AAPL", .aiCall "AAPL", .cacheWrite "AAPL"]) ∧
      (buildItem "AAPL" 0
          ⟨"Apple", "d", "Tech", "Hardware", 1, 10, 2, 3, 4, 5, 6, 7, 8, 9, 11⟩
          fallbackAnalysis).risks =
        ["AI analysis unavailable - check API key credits"] ∧
      (buildItem "AAPL" 0
          ⟨"Apple", "d", "Tech", "Hardware", 1, 10, 2, 3, 4, 5, 6, 7, 8, 9, 11⟩
          fallbackAnalysis).strengths =
        ["AI analysis unavailable - check API key credits"] ∧
      (buildItem "AAPL" 0
          ⟨"Apple", "d", "Tech", "Hardware", 1, 10, 2, 3, 4, 5, 6, 7, 8, 9, 11⟩
          fallbackAnalysis).evaluation =
        "AI analysis could not be generated. Financial data shown above is from live market data." ∧
      (buildItem "AAPL" 0
          ⟨"Apple", "d", "Tech", "Hardware", 1, 10, 2, 3, 4, 5, 6, 7, 8, 9, 11⟩
          fallbackAnalysis).price =
        (⟨"Apple", "d", "Tech", "Hardware", 1, 10, 2, 3, 4, 5, 6, 7, 8, 9, 11⟩ : FMPTickerData).price ∧
      (buildItem "AAPL" 0
          ⟨"Apple", "d", "Tech", "Hardware", 1, 10, 2, 3, 4, 5, 6, 7, 8, 9, 11⟩
          fallbackAnalysis).market_cap =
        (⟨"Apple", "d", "Tech", "Hardware", 1, 10, 2, 3, 4, 5, 6, 7, 8, 9, 11⟩ : FMPTickerData).mktCap ∧
      (buildItem "AAPL" 0
          ⟨"Apple", "d", "Tech", "Hardware", 1, 10, 2, 3, 4, 5, 6, 7, 8, 9, 11⟩
          fallbackAnalysis).company_name =
        (⟨"Apple", "d", "Tech", "Hardware", 1, 10, 2, 3, 4, 5, 6, 7, 8, 9, 11⟩ : FMPTickerData).companyName ∧
      (buildItem "AAPL" 0
          ⟨"Apple", "d", "Tech", "Hardware", 1, 10, 2, 3, 4, 5, 6, 7, 8, 9, 11⟩
          fallbackAnalysis).revenue =
        (⟨"Apple", "d", "Tech", "Hardware", 1, 10, 2, 3, 4, 5, 6, 7, 8, 9, 11⟩ : FMPTickerData).revenue ∧
      (buildItem "AAPL" 0
          ⟨"Apple", "d", "Tech", "Hardware", 1, 10, 2, 3, 4, 5, 6, 7, 8, 9, 11⟩
          fallbackAnalysis).ytd_change =
        (⟨"Apple", "d", "Tech", "Hardware", 1, 10, 2, 3, 4, 5, 6, 7, 8, 9, 11⟩ : FMPTickerData).ytdChange :=
  getOrRefresh_ai_failure (fun _ => none) 0 _ _ "AAPL"
    ⟨"Apple", "d", "Tech", "Hardware", 1, 10, 2, 3, 4, 5, 6, 7, 8, 9, 11⟩
    (fun _ h => nomatch h) rfl rfl

/-! ### Periodic price refresh: frame effect -/

/-- C10: the per-entity refresh update writes only `price`,
`dividend_yield`, `nav_per_share`, `debt_to_equity`, `price_to_nav` (each
only when fresh non-null data is available) and `updated_at`; every other
stored field — in particular `non_accrual_pct`, `dividend_growth_3yr`,
`total_assets` and `net_investment_income_yield` — is never modified. -/
theorem refreshOne_frame (b : BDCRecord) (fetchResult : Option YahooBDCData)
    (now : String) :
    ((refreshOne b fetchResult now).1.non_accrual_pct = b.non_accrual_pct) ∧
      ((refreshOne b fetchResult now).1.dividend_growth_3yr = b.dividend_growth_3yr) ∧
      ((refreshOne b fetchResult now).1.total_assets = b.total_assets) ∧
      ((refreshOne b fetchResult now).1.net_investment_income_yield =
        b.net_investment_income_yield) ∧
      ((refreshOne b fetchResult now).1.cik = b.cik) ∧
      ((refreshOne b fetchResult now).1.name = b.name) ∧
      ((refreshOne b fetchResult now).1.ticker = b.ticker) ∧
      ((refreshOne b fetchResult now).1.price ≠ b.price →
        ∃ yd v, fetchResult = some yd ∧ yd.price = some v ∧
          (refreshOne b fetchResult now).1.price = some v) ∧
      ((refreshOne b fetchResult now).1.dividend_yield ≠ b.dividend_yield →
        ∃ yd v, fetchResult = some yd ∧ yd.dividend_yield = some v ∧
          (refreshOne b fetchResult now).1.dividend_yield = some v) ∧
      ((refreshOne b fetchResult now).1.nav_per_share ≠ b.nav_per_share →
        ∃ yd v, fetchResult = some yd ∧ yd.nav_per_share = some v ∧
          (refreshOne b fetchResult now).1.nav_per_share = some v) ∧
      ((refreshOne b fetchResult now).1.debt_to_equity ≠ b.debt_to_equity →
        ∃ yd v, fetchResult = some yd ∧ yd.debt_to_equity = some v ∧
          (refreshOne b fetchResult now).1.debt_to_equity = some v) ∧
      ((refreshOne b fetchResult now).1.price_to_nav ≠ b.price_to_nav →
        ∃ yd p n, fetchResult = some yd ∧ yd.price = some p ∧
          yd.nav_per_share = some n ∧ 0 < n) := by
  cases fetchResult with
  | none => simp [refreshOne]
  | some yd =>
    simp only [refreshOne]
    by_cases hm : meaningfulFieldCount (buildUpdateFields yd now) = 0
    · simp [hm]
    · simp only [if_neg hm]
      refine ⟨rfl, rfl, rfl, rfl, rfl, rfl, rfl, ?_, ?_, ?_, ?_, ?_⟩
      · intro hne
        cases hp : yd.price with
        | none => exact absurd (by simp [applyUpdate, buildUpdateFields, hp]) hne
        | some v =>
          exact ⟨yd, v, rfl, hp, by simp [applyUpdate, buildUpdateFields, hp]⟩
      · intro hne
        cases hp : yd.dividend_yield with
        | none => exact absurd (by simp [applyUpdate, buildUpdateFields, hp]) hne
        | some v =>
          exact ⟨yd, v, rfl, hp, by simp [applyUpdate, buildUpdateFields, hp]⟩
      · intro hne
        cases hp : yd.nav_per_share with
        | none => exact absurd (by simp [applyUpdate, buildUpdateFields, hp]) hne
        | some v =>
          exact ⟨yd, v, rfl, hp, by simp [applyUpdate, buildUpdateFields, hp]⟩
      · intro hne
        cases hp : yd.debt_to_equity with
        | none => exact absurd (by simp [applyUpdate, buildUpdateFields, hp]) hne
        | some v =>
          exact ⟨yd, v, rfl, hp, by simp [applyUpdate, buildUpdateFields, hp]⟩
      · intro hne
        cases hp : yd.price with
        | none => exact absurd (by simp [applyUpdate, buildUpdateFields, hp]) hne
        | some p =>
          cases hn : yd.nav_per_share with
          | none => exact absurd (by simp [applyUpdate, buildUpdateFields, hp, hn]) hne
          | some n =>
            by_cases h0 : 0 < n
            · exact ⟨yd, p, n, rfl, hp, hn, h0⟩
            · exact absurd (by simp [applyUpdate, buildUpdateFields, hp, hn, h0]) hne

/-- Witness for C10 at a record with every scalar populated and fresh data
holding only price and dividend yield: the untouched fields keep their
stored values and the changed price comes from the fresh data. -/
theorem refreshOne_frame_witness :
    ((refreshOne ⟨"1", "B", none, some 1, some 2, some 3, some 4, some 5, some 6,
        some 7, some 8, some 9, none⟩
        (some ⟨some 10, some 11, none, none⟩) "2026-01-01").1.non_accrual_pct = some 6) ∧
      ((refreshOne ⟨"1", "B", none, some 1, some 2, some 3, some 4, some 5, some 6,
          some 7, some 8, some 9, none⟩
          (some ⟨some 10, some 11, none, none⟩) "2026-01-01").1.total_assets = some 9) ∧
      (∃ yd v, (some (⟨some 10, some 11, none, none⟩ : YahooBDCData)) = some yd ∧
        yd.price = some v ∧
        (refreshOne ⟨"1", "B", none, some 1, some 2, some 3, some 4, some 5, some 6,
            some 7, some 8, some 9, none⟩
            (some ⟨some 10, some 11, none, none⟩) "2026-01-01").1.price = some v) := by
  have h := refreshOne_frame
    ⟨"1", "B", none, some 1, some 2, some 3, some 4, some 5, some 6,
      some 7, some 8, some 9, none⟩
    (some ⟨some 10, some 11, none, none⟩) "2026-01-01"
  exact ⟨h.1, h.2.2.1, h.2.2.2.2.2.2.2.1 (by decide)⟩

end PortfolioMonitor
